import Mathlib

/-!
Shallow embedding of the Registration Reconciliation Engine of
`src/app.js` (the event-registration backend): the `POST /register`
handler (lines 282-400), the `GET /get-registration` handler
(lines 419-450), the rate-limiter configuration and key generator
(lines 40-62), and the route/middleware table.

Conventions of the embedding:
* JS strings are Lean `String`; a request-body field that may be absent
  is `Option String` (`none` = the field is missing from the JSON body).
* Template-literal interpolation of an absent value renders the literal
  text `undefined`, as in JS.
* External collaborators (Supabase auth, Supabase storage, the Postgres
  table behind `upsert`/`select`, the Brevo mail API, the
  express-rate-limit window counter) are modelled at the interface the
  spec describes for them: the environment `Env` fixes each
  collaborator's answer for the one request being run, the `submissions`
  table is a list of rows, and the storage bucket is a list of
  (path, encoded content) objects.
-/

/-! ## Definitions: the embedded data model, handlers and fixtures -/

/-- JS template-literal rendering of a possibly-absent string value:
`undefined` is rendered as the literal text `undefined`. -/
def jsStr : Option String → String
  | none => "undefined"
  | some s => s

/-- Decimal fragment of JS `parseInt`: skip leading whitespace, optional
sign, then leading decimal digits; no digits means NaN (`none`). -/
def jsParseInt (s : String) : Option Int :=
  let l := s.data.dropWhile (fun c => c = ' ' || c = '\t' || c = '\n' || c = '\r')
  let signAndRest : Int × List Char :=
    match l with
    | '-' :: r => (-1, r)
    | '+' :: r => (1, r)
    | _ => (1, l)
  let ds := signAndRest.2.takeWhile (fun c => c.isDigit)
  if ds.isEmpty then none
  else some (signAndRest.1 * (ds.foldl (fun a c => a * 10 + (c.toNat - 48)) 0 : Nat))

/-- Embedding of `parseInt(x) || 0` applied to a possibly-absent body
field: an absent field, or a field whose parse is NaN, coerces to 0
(and `0 || 0` is again 0). -/
def parseIntOr0 (x : Option String) : Int :=
  match x with
  | none => 0
  | some s =>
    match jsParseInt s with
    | none => 0
    | some n => n

/-- JS `String.prototype.trim`: strip whitespace from both ends. -/
def jsTrim (s : String) : String :=
  (((s.data.dropWhile (fun c => c = ' ' || c = '\t' || c = '\n' || c = '\r')).reverse.dropWhile
    (fun c => c = ' ' || c = '\t' || c = '\n' || c = '\r')).reverse).asString

/-- JS `s.split(',')[0]`: the characters before the first comma
(the whole string when it has no comma). -/
def xffFirst (s : String) : String :=
  (s.data.takeWhile (fun c => c ≠ ',')).asString

/-- Embedding of `req.headers.authorization?.split(' ')[1]`: the second
space-separated field of the Authorization header, when both the header
and that field exist. -/
def bearerToken (auth : Option String) : Option String :=
  auth.bind (fun h => ((List.splitOn ' ' h.data).get? 1).map List.asString)

/-- The participant fields destructured from `req.body` in the
`POST /register` handler; every field may be absent from the JSON body. -/
structure Body where
  participant_name : Option String
  email : Option String
  mobile : Option String
  location : Option String
  teens_adults : Option String
  kids : Option String
  thu_night : Option String
  fri_reunion : Option String
  fri_night : Option String
  sat_reunion : Option String
  sat_night : Option String
deriving DecidableEq

/-- One row of the `submissions` table as written by `POST /register`:
the RegistrationRecord of the spec, keyed by `user_id`. -/
structure Row where
  user_id : String
  participant_name : Option String
  email : Option String
  mobile : Option String
  location : Option String
  teens_adults : Int
  kids : Int
  thu_night : Option String
  fri_reunion : Option String
  fri_night : Option String
  sat_reunion : Option String
  sat_night : Option String
  qr_code_url : Option String
deriving DecidableEq

/-- An inbound HTTP request to the registration endpoints. -/
structure Request where
  authorization : Option String
  body : Body

/-- Collaborator answers for one request: the identity service's
verdict on a token, the storage / database / email failure outcomes
(`none` = the call succeeds, `some e` = it fails with message `e`), and
the rendering of `Date.now()` used in the artifact path. -/
structure Env where
  getUser : Option String → Option String
  uploadError : Option String
  dbError : Option String
  emailError : Option String
  nowStr : String

/-- The shared mutable state: the `submissions` table and the `images`
storage bucket (path, encoded content of the stored artifact). -/
structure SysState where
  table : List Row
  bucket : List (String × String)
deriving DecidableEq

/-- A write issued to the structured record store.  `upsert` carries the
conflict key of the `onConflict` option. -/
inductive DbWrite where
  | insert (row : Row)
  | upsert (onConflict : String) (row : Row)
deriving DecidableEq

/-- A transactional email handed to the mail collaborator. -/
structure Email where
  recipient : Option String
  recipientName : Option String
  senderName : String
  senderEmail : String
  subject : String
  htmlContent : String
deriving DecidableEq

/-- The JSON response of `POST /register`. -/
inductive RegResp where
  | ok (message : String) (emailSent : Bool)
  | err (status : Nat) (error : String)
deriving DecidableEq

/-- Everything observable about one run of the `POST /register`
handler: the response, the state afterwards, and the side-effect calls
that were attempted (`uploads` also lists a storage write that failed;
`bucket` only grows on success). -/
structure RegOutcome where
  resp : RegResp
  table : List Row
  bucket : List (String × String)
  dbWrites : List DbWrite
  uploads : List (String × String)
  emails : List Email
deriving DecidableEq

def msgEmailSent : String := "Registration updated and email sent!"

def msgSilent : String := "Profile updated successfully!"

def msgUnauthorized : String := "Unauthorized"

def msgInvalidSession : String := "Invalid session"

def userIdKey : String := "user_id"

def emailSubject : String := "Your Family Reunion QR Code"

def senderNameConst : String := "Reunion Team"

def senderEmailConst : String := "d.mahesh.0510@gmail.com"

/-- The deterministic seed string encoded into the QR artifact:
`Reunion-2026-${mobile}`. -/
def qrSeed (m : String) : String := "Reunion-2026-" ++ m

/-- The storage path of the artifact: `qrcodes/${mobile}-${Date.now()}.png`. -/
def qrPath (m : String) (ts : String) : String :=
  "qrcodes/" ++ m ++ "-" ++ ts ++ ".png"

/-- The `getPublicUrl` reference: the stable public reference of a stored object,
a deterministic function of its path. -/
def publicUrl (p : String) : String :=
  "/storage/v1/object/public/images/" ++ p

/-- The Change Detector (lines 316-318): regenerate exactly when there
is no prior record, or the stored `participant_name`, `email` or
`mobile` differs (JS `!==`) from the incoming body field. -/
def mustRegenerate (existing : Option Row) (b : Body) : Bool :=
  match existing with
  | none => true
  | some ex =>
    ex.participant_name != b.participant_name ||
    ex.email != b.email || ex.mobile != b.mobile

/-- The row handed to `upsert` (lines 346-360), built from the request
body, the verified principal and the resolved artifact reference. -/
def rowOf (uid : String) (b : Body) (url : Option String) : Row where
  user_id := uid
  participant_name := b.participant_name
  email := b.email
  mobile := b.mobile
  location := b.location
  teens_adults := parseIntOr0 b.teens_adults
  kids := parseIntOr0 b.kids
  thu_night := b.thu_night
  fri_reunion := b.fri_reunion
  fri_night := b.fri_night
  sat_reunion := b.sat_reunion
  sat_night := b.sat_night
  qr_code_url := url

/-- The confirmation email built in lines 370-385. -/
def mkEmail (b : Body) (url : String) : Email where
  recipient := b.email
  recipientName := b.participant_name
  senderName := senderNameConst
  senderEmail := senderEmailConst
  subject := emailSubject
  htmlContent :=
    "<div><h1>Hello " ++ jsStr b.participant_name ++
    "!</h1><p>Your registration is confirmed. Please present the code below at the resort check-in.</p><img src=" ++
    url ++ "><p><strong>Mobile:</strong> " ++ jsStr b.mobile ++
    "</p><p>We look forward to seeing you at Heritage Resort!</p></div>"

/-- Postgres `INSERT ... ON CONFLICT (user_id) DO UPDATE` as invoked by
`upsert(..., { onConflict: 'user_id' })`: atomically replace the rows
whose key matches, or append when none does. -/
def upsertRow (t : List Row) (r : Row) : List Row :=
  if t.any (fun x => x.user_id == r.user_id) then
    t.map (fun x => if x.user_id == r.user_id then r else x)
  else t ++ [r]

/-- Stage of `POST /register` after a successful storage upload
(lines 344-394): the atomic upsert, then the conditional email, then
the success response. -/
def regFinish (env : Env) (s : SysState) (b : Body) (uid : String)
    (bucket' : List (String × String)) (ups : List (String × String))
    (url : String) : RegOutcome :=
  match env.dbError with
  | some e =>
    { resp := .err 500 e, table := s.table, bucket := bucket',
      dbWrites := [.upsert userIdKey (rowOf uid b (some url))],
      uploads := ups, emails := [] }
  | none =>
    match env.emailError with
    | some e =>
      { resp := .err 500 e, table := upsertRow s.table (rowOf uid b (some url)),
        bucket := bucket', dbWrites := [.upsert userIdKey (rowOf uid b (some url))],
        uploads := ups, emails := [mkEmail b url] }
    | none =>
      { resp := .ok msgEmailSent true, table := upsertRow s.table (rowOf uid b (some url)),
        bucket := bucket', dbWrites := [.upsert userIdKey (rowOf uid b (some url))],
        uploads := ups, emails := [mkEmail b url] }

/-- The regeneration branch of `POST /register` (lines 316-338):
derive the seed, upload the artifact (aborting the whole request if the
storage write fails), resolve the new public reference. -/
def regRegen (env : Env) (s : SysState) (b : Body) (uid : String) : RegOutcome :=
  match env.uploadError with
  | some e =>
    { resp := .err 500 e, table := s.table, bucket := s.bucket, dbWrites := [],
      uploads := [(qrPath (jsStr b.mobile) env.nowStr, qrSeed (jsStr b.mobile))],
      emails := [] }
  | none =>
    regFinish env s b uid
      (s.bucket ++ [(qrPath (jsStr b.mobile) env.nowStr, qrSeed (jsStr b.mobile))])
      [(qrPath (jsStr b.mobile) env.nowStr, qrSeed (jsStr b.mobile))]
      (publicUrl (qrPath (jsStr b.mobile) env.nowStr))

/-- The silent-update branch of `POST /register` (lines 339-360): carry
the existing artifact reference forward unchanged and upsert; no email. -/
def regSilent (env : Env) (s : SysState) (b : Body) (uid : String)
    (existing : Option Row) : RegOutcome :=
  match env.dbError with
  | some e =>
    { resp := .err 500 e, table := s.table, bucket := s.bucket,
      dbWrites := [.upsert userIdKey (rowOf uid b (existing.bind (fun r => r.qr_code_url)))],
      uploads := [], emails := [] }
  | none =>
    { resp := .ok msgSilent false,
      table := upsertRow s.table (rowOf uid b (existing.bind (fun r => r.qr_code_url))),
      bucket := s.bucket,
      dbWrites := [.upsert userIdKey (rowOf uid b (existing.bind (fun r => r.qr_code_url)))],
      uploads := [], emails := [] }

/-- The `POST /register` handler (src/app.js lines 282-400): verify the
bearer token, fetch the caller's prior record, run the Change Detector,
then the regeneration or silent branch. -/
def register (env : Env) (s : SysState) (req : Request) : RegOutcome :=
  match env.getUser (bearerToken req.authorization) with
  | none =>
    { resp := .err 401 msgUnauthorized, table := s.table, bucket := s.bucket,
      dbWrites := [], uploads := [], emails := [] }
  | some uid =>
    if mustRegenerate (s.table.find? (fun r => r.user_id == uid)) req.body then
      regRegen env s req.body uid
    else
      regSilent env s req.body uid (s.table.find? (fun r => r.user_id == uid))

/-- The JSON response of `GET /get-registration`. -/
inductive GetResp where
  | ok (row : Option Row)
  | err (status : Nat) (error : String)
deriving DecidableEq

/-- Observable outcome of one run of `GET /get-registration`. -/
structure GetOutcome where
  resp : GetResp
  table : List Row
  bucket : List (String × String)
  dbWrites : List DbWrite
deriving DecidableEq

/-- The `GET /get-registration` handler (src/app.js lines 419-450):
explicit missing-token check, token verification, then a read-only
select of the caller's own row. -/
def getRegistration (env : Env) (s : SysState) (req : Request) : GetOutcome :=
  match bearerToken req.authorization with
  | none =>
    { resp := .err 401 msgUnauthorized, table := s.table, bucket := s.bucket, dbWrites := [] }
  | some tok =>
    match env.getUser (some tok) with
    | none =>
      { resp := .err 401 msgInvalidSession, table := s.table, bucket := s.bucket, dbWrites := [] }
    | some uid =>
      { resp := .ok (s.table.find? (fun r => r.user_id == uid)),
        table := s.table, bucket := s.bucket, dbWrites := [] }

/-- A reconciliation step of the system state: run `POST /register`
with that call's collaborator answers and keep the resulting state. -/
def stepState (s : SysState) (er : Env × Request) : SysState :=
  let o := register er.1 s er.2
  { table := o.table, bucket := o.bucket }

/-- Run a whole sequence of reconciliation calls. -/
def runTrace (l : List (Env × Request)) (s : SysState) : SysState :=
  l.foldl stepState s

/-- The state at system start: empty table, empty bucket. -/
def initState : SysState where
  table := []
  bucket := []

/-- Uniqueness invariant: at most one row per principal key. -/
def TableUniq (t : List Row) : Prop :=
  ∀ uid : String, t.countP (fun r => r.user_id == uid) ≤ 1

/-- A row's artifact reference, when set, points at a stored artifact
whose encoded content is the seed derived from the row's own phone
number (and the object is present in the bucket). -/
def RowOk (bucket : List (String × String)) (r : Row) : Prop :=
  r.qr_code_url = none ∨
  ∃ ts : String,
    r.qr_code_url = some (publicUrl (qrPath (jsStr r.mobile) ts)) ∧
    (qrPath (jsStr r.mobile) ts, qrSeed (jsStr r.mobile)) ∈ bucket

/-- The system invariant: unique keys, every row's artifact consistent. -/
def StateOk (s : SysState) : Prop :=
  TableUniq s.table ∧ ∀ r ∈ s.table, RowOk s.bucket r

/-- Clock freshness for one call: the rendered `Date.now()` yields a
storage path that collides with no object already in the bucket. -/
def FreshTs (env : Env) (s : SysState) : Prop :=
  ∀ pc ∈ s.bucket, ∀ m : String, (pc : String × String).1 ≠ qrPath m env.nowStr

/-- Middleware applied to a route in `src/app.js`. -/
inductive Mw where
  | globalLimiter
  | uploadLimiter
  | multerSingle
  | multerAny
deriving DecidableEq

def signupPath : String := "/signup"

def registerPath : String := "/register"

def loginPath : String := "/login"

def uploadFilePath : String := "/upload-file"

def salesforcePath : String := "/api/salesforce/upload"

/-- The POST routes of `src/app.js` with their route-level middleware,
as registered: `/signup` line 149, `/register` line 282, `/login`
line 402, `/upload-file` line 452, `/api/salesforce/upload` line 496.
(`globalLimiter` is additionally applied app-wide at line 62.) -/
def postRoutes : List (String × List Mw) :=
  [(signupPath, [Mw.uploadLimiter]),
   (registerPath, []),
   (loginPath, []),
   (uploadFilePath, [Mw.uploadLimiter, Mw.multerSingle]),
   (salesforcePath, [Mw.multerAny])]

/-- Route-level middleware of a POST path. -/
def routeMws (p : String) : List Mw :=
  (((postRoutes.find? (fun x => x.1 == p)).map (fun x => x.2)).getD [])

/-- Configuration of a rate-limit policy. -/
structure LimiterCfg where
  windowMs : Nat
  maxHits : Nat
  message : String
deriving DecidableEq

def rateLimitMsg : String := "Upload limit reached!"

def globalLimitMsg : String := "Too many requests from this IP, please try again after 15 minutes"

/-- The narrower limiter of lines 48-60: 1 hour window, 100 requests. -/
def uploadLimiterCfg : LimiterCfg where
  windowMs := 60 * 60 * 1000
  maxHits := 100
  message := rateLimitMsg

/-- The broad limiter of lines 40-46: 15 minutes, 100 requests. -/
def globalLimiterCfg : LimiterCfg where
  windowMs := 15 * 60 * 1000
  maxHits := 100
  message := globalLimitMsg

/-- The `keyGenerator` of lines 55-59: the first entry of the
`x-forwarded-for` chain, trimmed, when the header is present and
non-empty (JS truthiness), else the direct connection address. -/
def rateKey (xff : Option String) (ip : String) : String :=
  match xff with
  | some s => if s = "" then ip else jsTrim (xffFirst s)
  | none => ip

/-- Modelled from the spec: the fixed-window admission rule of the
express-rate-limit collaborator (the library itself is not in src/).
Within one window a request is admitted exactly when the number of
already-counted requests with the same derived key is below the cap. -/
def limiterAdmits (cfg : LimiterCfg) (prior : List String) (k : String) : Bool :=
  prior.countP (fun x => x == k) < cfg.maxHits

def uid1 : String := "user-1"

def authHdr1 : String := "Bearer tok-1"

def tok1 : String := "tok-1"

def ts1 : String := "100"

def nowLong : String := "99999999999"

def errUpload : String := "storage upload failed"

def errEmail : String := "email send failed"

def body1 : Body where
  participant_name := some (r"Ana")
  email := some (r"a@x.com")
  mobile := some (r"555-1")
  location := some (r"Chennai")
  teens_adults := some (r"2")
  kids := some (r"1")
  thu_night := some (r"yes")
  fri_reunion := some (r"yes")
  fri_night := some (r"no")
  sat_reunion := some (r"yes")
  sat_night := some (r"no")

def reqA : Request where
  authorization := some authHdr1
  body := body1

def reqNoAuth : Request where
  authorization := none
  body := body1

/-- All collaborators succeed, clock reads `100`. -/
def envA : Env where
  getUser := fun _ => some uid1
  uploadError := none
  dbError := none
  emailError := none
  nowStr := ts1

/-- Identity collaborator rejects every token. -/
def envReject : Env where
  getUser := fun _ => none
  uploadError := none
  dbError := none
  emailError := none
  nowStr := ts1

/-- Storage write fails, everything else succeeds. -/
def envUploadFail : Env where
  getUser := fun _ => some uid1
  uploadError := some errUpload
  dbError := none
  emailError := none
  nowStr := ts1

/-- Email send fails after upload and upsert succeed. -/
def envEmailFail : Env where
  getUser := fun _ => some uid1
  uploadError := none
  dbError := none
  emailError := some errEmail
  nowStr := ts1

def url1 : String := publicUrl (qrPath (jsStr body1.mobile) ts1)

def row1 : Row := rowOf uid1 body1 (some url1)

def state1 : SysState where
  table := [row1]
  bucket := [(qrPath (jsStr body1.mobile) ts1, qrSeed (jsStr body1.mobile))]

def bodyKids : Body := { body1 with kids := some (r"2") }

def reqKids : Request where
  authorization := some authHdr1
  body := bodyKids

def bodyPhone : Body := { body1 with mobile := some (r"555-2") }

def reqPhone : Request where
  authorization := some authHdr1
  body := bodyPhone

def bodyName : Body := { body1 with participant_name := some (r"Bea") }

def reqName : Request where
  authorization := some authHdr1
  body := bodyName

def bodyNoMob : Body := { body1 with mobile := none }

def reqNoMob : Request where
  authorization := some authHdr1
  body := bodyNoMob

/-- All collaborators succeed, clock reads a fresh long timestamp. -/
def envFresh : Env where
  getUser := fun _ => some uid1
  uploadError := none
  dbError := none
  emailError := none
  nowStr := nowLong

/-- Conclusion of claim C2, packaged. -/
def C2Concl (env : Env) (s : SysState) (req : Request) (uid : String) (ex : Row) : Prop :=
  (mustRegenerate (some ex) req.body = true ↔
    (ex.participant_name ≠ req.body.participant_name ∨
     ex.email ≠ req.body.email ∨ ex.mobile ≠ req.body.mobile)) ∧
  (∀ b : Body, mustRegenerate none b = true) ∧
  (mustRegenerate (some ex) req.body = false →
    (register env s req).uploads = [] ∧
    (register env s req).emails = [] ∧
    (register env s req).bucket = s.bucket ∧
    (env.dbError = none →
      (register env s req).resp = RegResp.ok msgSilent false ∧
      (register env s req).table = upsertRow s.table (rowOf uid req.body ex.qr_code_url)))

/-- Conclusion of claim C4, packaged: the outcome of re-submitting the
same request immediately after a first application. -/
def C4Concl (env1 env2 : Env) (s : SysState) (req : Request) : Prop :=
  (register env2 (stepState s (env1, req)) req).resp = RegResp.ok msgSilent false ∧
  (register env2 (stepState s (env1, req)) req).table = (register env1 s req).table ∧
  (register env2 (stepState s (env1, req)) req).bucket = (register env1 s req).bucket ∧
  (register env2 (stepState s (env1, req)) req).uploads = [] ∧
  (register env2 (stepState s (env1, req)) req).emails = []

def undefinedText : String := "undefined"

def seedUndefined : String := "Reunion-2026-undefined"

/-- Conclusion of claim C3, packaged. -/
def C3Concl (env : Env) (s : SysState) (req : Request) (uid u0 : String) : Prop :=
  (register env s req).resp = RegResp.ok msgEmailSent true ∧
  (register env s req).uploads =
    [(qrPath (jsStr req.body.mobile) env.nowStr, qrSeed (jsStr req.body.mobile))] ∧
  (qrPath (jsStr req.body.mobile) env.nowStr, qrSeed (jsStr req.body.mobile)) ∈
    (register env s req).bucket ∧
  (register env s req).table.find? (fun r => r.user_id == uid) =
    some (rowOf uid req.body
      (some (publicUrl (qrPath (jsStr req.body.mobile) env.nowStr)))) ∧
  publicUrl (qrPath (jsStr req.body.mobile) env.nowStr) ≠ u0 ∧
  (register env s req).emails =
    [mkEmail req.body (publicUrl (qrPath (jsStr req.body.mobile) env.nowStr))]

/-- Conclusion of claim C9, packaged. -/
def C9Concl (env : Env) (s : SysState) (req : Request) (ex : Row) (u0 : String) : Prop :=
  (register env s req).uploads =
    [(qrPath (jsStr ex.mobile) env.nowStr, qrSeed (jsStr ex.mobile))] ∧
  (∃ ts : String, u0 = publicUrl (qrPath (jsStr ex.mobile) ts) ∧
    (qrPath (jsStr ex.mobile) ts, qrSeed (jsStr ex.mobile)) ∈ s.bucket) ∧
  publicUrl (qrPath (jsStr ex.mobile) env.nowStr) ≠ u0

/-- Conclusion of claim C10, packaged. -/
def C10Concl (env : Env) (s : SysState) (req : Request) (uid : String) : Prop :=
  (register env s req).resp = RegResp.ok msgEmailSent true ∧
  (register env s req).uploads =
    [(qrPath undefinedText env.nowStr, qrSeed undefinedText)] ∧
  qrSeed undefinedText = seedUndefined ∧
  jsStr req.body.mobile = undefinedText ∧
  (register env s req).table.find? (fun r => r.user_id == uid) =
    some (rowOf uid req.body (some (publicUrl (qrPath undefinedText env.nowStr)))) ∧
  (rowOf uid req.body (some (publicUrl (qrPath undefinedText env.nowStr)))).mobile = none

def ipA : String := "1.2.3.4"

def ipB : String := "5.6.7.8"

def ipC : String := "9.9.9.9"

/-! ## Theorems -/

theorem countP_le_one_eq {p : Row → Bool} :
    ∀ {t : List Row}, t.countP p ≤ 1 →
      ∀ x ∈ t, p x = true → ∀ y ∈ t, p y = true → x = y := by
  intro t
  induction t with
  | nil => intro _ x hx; cases hx
  | cons a tl ih =>
    intro h x hx hpx y hy hpy
    rw [List.countP_cons] at h
    by_cases hpa : p a = true
    · simp only [hpa, if_true] at h
      have htl : tl.countP p = 0 := by omega
      have hnone : ∀ z ∈ tl, ¬ p z = true := List.countP_eq_zero.mp htl
      rcases List.mem_cons.mp hx with rfl | hxtl
      · rcases List.mem_cons.mp hy with rfl | hytl
        · rfl
        · exact absurd hpy (hnone y hytl)
      · exact absurd hpx (hnone x hxtl)
    · rcases List.mem_cons.mp hx with rfl | hxtl
      · exact absurd hpx hpa
      · rcases List.mem_cons.mp hy with rfl | hytl
        · exact absurd hpy hpa
        · have h' : tl.countP p ≤ 1 := by
            simp only [hpa, if_false] at h; omega
          exact ih h' x hxtl hpx y hytl hpy

theorem upsertRow_uniq {t : List Row} {r : Row} (h : TableUniq t) :
    TableUniq (upsertRow t r) := by
  intro uid
  unfold upsertRow
  by_cases ha : t.any (fun x => x.user_id == r.user_id) = true
  · rw [if_pos ha, List.countP_map]
    have : List.countP ((fun x => x.user_id == uid) ∘
        fun x => if x.user_id == r.user_id then r else x) t =
        List.countP (fun x => x.user_id == uid) t := by
      apply List.countP_congr
      intro x _
      by_cases hm : x.user_id == r.user_id
      · have hx : x.user_id = r.user_id := by
          exact (beq_iff_eq).mp hm
        simp [Function.comp, hm, hx]
      · simp [Function.comp, hm]
    rw [this]; exact h uid
  · rw [if_neg ha, List.countP_append]
    have hnone : ∀ x ∈ t, ¬ (x.user_id == r.user_id) = true := by
      intro x hx hc
      exact ha (List.any_eq_true.mpr ⟨x, hx, hc⟩)
    by_cases hk : (r.user_id == uid) = true
    · have hz : t.countP (fun x => x.user_id == uid) = 0 := by
        apply List.countP_eq_zero.mpr
        intro x hx hc
        have h1 : x.user_id = uid := (beq_iff_eq).mp hc
        have h2 : r.user_id = uid := (beq_iff_eq).mp hk
        exact hnone x hx ((beq_iff_eq).mpr (h1.trans h2.symm))
      simp [hz, hk, List.countP_cons]
    · have : List.countP (fun x => x.user_id == uid) [r] = 0 := by
        simp [List.countP_cons, hk]
      rw [this]
      simpa using h uid

theorem find?_map_replace (r : Row) :
    ∀ t : List Row, t.any (fun x => x.user_id == r.user_id) = true →
      (t.map (fun x => if x.user_id == r.user_id then r else x)).find?
        (fun x => x.user_id == r.user_id) = some r := by
  intro t
  induction t with
  | nil => intro h; cases h
  | cons a tl ih =>
    intro h
    by_cases hpa : (a.user_id == r.user_id) = true
    · have hr : a.user_id = r.user_id := beq_iff_eq.mp hpa
      simp [List.find?_cons, hr]
    · simp only [List.map_cons, hpa, if_false]
      have htl : tl.any (fun x => x.user_id == r.user_id) = true := by
        simpa [List.any_cons, hpa] using h
      simpa [List.find?_cons, hpa] using ih htl

theorem find?_upsertRow (t : List Row) (r : Row) :
    (upsertRow t r).find? (fun x => x.user_id == r.user_id) = some r := by
  unfold upsertRow
  by_cases ha : t.any (fun x => x.user_id == r.user_id) = true
  · rw [if_pos ha]
    exact find?_map_replace r t ha
  · rw [if_neg ha]
    rw [List.find?_append]
    have hnone : t.find? (fun x => x.user_id == r.user_id) = none := by
      rw [List.find?_eq_none]
      intro x hx hc
      exact ha (List.any_eq_true.mpr ⟨x, hx, hc⟩)
    simp [hnone]

theorem find?_upsertRow_key (t : List Row) (r : Row) (uid : String)
    (h : r.user_id = uid) :
    (upsertRow t r).find? (fun x => x.user_id == uid) = some r := by
  subst h; exact find?_upsertRow t r

theorem upsertRow_self {t : List Row} {r : Row} (hU : TableUniq t)
    (h : t.find? (fun x => x.user_id == r.user_id) = some r) :
    upsertRow t r = t := by
  have hmem : r ∈ t := List.mem_of_find?_eq_some h
  have hpr : (r.user_id == r.user_id) = true := beq_self_eq_true r.user_id
  have hany : t.any (fun x => x.user_id == r.user_id) = true :=
    List.any_eq_true.mpr ⟨r, hmem, hpr⟩
  unfold upsertRow
  rw [if_pos hany]
  have huniq := countP_le_one_eq (hU r.user_id)
  have : ∀ x ∈ t, (if x.user_id == r.user_id then r else x) = x := by
    intro x hx
    by_cases hm : (x.user_id == r.user_id) = true
    · rw [if_pos hm]
      exact huniq r hmem hpr x hx hm
    · rw [if_neg hm]
  calc t.map (fun x => if x.user_id == r.user_id then r else x)
      = t.map id := List.map_congr_left this
    _ = t := List.map_id t

theorem publicUrl_injective {p q : String} (h : publicUrl p = publicUrl q) : p = q := by
  unfold publicUrl at h
  have := congrArg String.data h
  rw [String.data_append, String.data_append] at this
  exact String.ext (List.append_cancel_left this)

theorem mustRegenerate_rowOf (uid : String) (b : Body) (url : Option String) :
    mustRegenerate (some (rowOf uid b url)) b = false := by
  simp [mustRegenerate, rowOf]

theorem register_auth_fail {env : Env} {s : SysState} {req : Request}
    (hA : env.getUser (bearerToken req.authorization) = none) :
    register env s req =
      { resp := .err 401 msgUnauthorized, table := s.table, bucket := s.bucket,
        dbWrites := [], uploads := [], emails := [] } := by
  unfold register; rw [hA]

theorem register_auth_ok {env : Env} {s : SysState} {req : Request} {uid : String}
    (hA : env.getUser (bearerToken req.authorization) = some uid) :
    register env s req =
      if mustRegenerate (s.table.find? (fun r => r.user_id == uid)) req.body then
        regRegen env s req.body uid
      else
        regSilent env s req.body uid (s.table.find? (fun r => r.user_id == uid)) := by
  unfold register; rw [hA]

theorem regRegen_upload_fail {env : Env} {s : SysState} {b : Body} {uid : String}
    {e : String} (hU : env.uploadError = some e) :
    regRegen env s b uid =
      { resp := .err 500 e, table := s.table, bucket := s.bucket, dbWrites := [],
        uploads := [(qrPath (jsStr b.mobile) env.nowStr, qrSeed (jsStr b.mobile))],
        emails := [] } := by
  unfold regRegen; rw [hU]

theorem regRegen_upload_ok {env : Env} {s : SysState} {b : Body} {uid : String}
    (hU : env.uploadError = none) :
    regRegen env s b uid =
      regFinish env s b uid
        (s.bucket ++ [(qrPath (jsStr b.mobile) env.nowStr, qrSeed (jsStr b.mobile))])
        [(qrPath (jsStr b.mobile) env.nowStr, qrSeed (jsStr b.mobile))]
        (publicUrl (qrPath (jsStr b.mobile) env.nowStr)) := by
  unfold regRegen; rw [hU]

theorem regFinish_db_fail {env : Env} {s : SysState} {b : Body} {uid : String}
    {bucket' ups : List (String × String)} {url : String} {e : String}
    (hD : env.dbError = some e) :
    regFinish env s b uid bucket' ups url =
      { resp := .err 500 e, table := s.table, bucket := bucket',
        dbWrites := [.upsert userIdKey (rowOf uid b (some url))],
        uploads := ups, emails := [] } := by
  unfold regFinish; rw [hD]

theorem regFinish_email_fail {env : Env} {s : SysState} {b : Body} {uid : String}
    {bucket' ups : List (String × String)} {url : String} {e : String}
    (hD : env.dbError = none) (hE : env.emailError = some e) :
    regFinish env s b uid bucket' ups url =
      { resp := .err 500 e, table := upsertRow s.table (rowOf uid b (some url)),
        bucket := bucket', dbWrites := [.upsert userIdKey (rowOf uid b (some url))],
        uploads := ups, emails := [mkEmail b url] } := by
  unfold regFinish; rw [hD, hE]

theorem regFinish_ok {env : Env} {s : SysState} {b : Body} {uid : String}
    {bucket' ups : List (String × String)} {url : String}
    (hD : env.dbError = none) (hE : env.emailError = none) :
    regFinish env s b uid bucket' ups url =
      { resp := .ok msgEmailSent true, table := upsertRow s.table (rowOf uid b (some url)),
        bucket := bucket', dbWrites := [.upsert userIdKey (rowOf uid b (some url))],
        uploads := ups, emails := [mkEmail b url] } := by
  unfold regFinish; rw [hD, hE]

theorem regSilent_db_fail {env : Env} {s : SysState} {b : Body} {uid : String}
    {existing : Option Row} {e : String} (hD : env.dbError = some e) :
    regSilent env s b uid existing =
      { resp := .err 500 e, table := s.table, bucket := s.bucket,
        dbWrites := [.upsert userIdKey (rowOf uid b (existing.bind (fun r => r.qr_code_url)))],
        uploads := [], emails := [] } := by
  unfold regSilent; rw [hD]

theorem regSilent_ok {env : Env} {s : SysState} {b : Body} {uid : String}
    {existing : Option Row} (hD : env.dbError = none) :
    regSilent env s b uid existing =
      { resp := .ok msgSilent false,
        table := upsertRow s.table (rowOf uid b (existing.bind (fun r => r.qr_code_url))),
        bucket := s.bucket,
        dbWrites := [.upsert userIdKey (rowOf uid b (existing.bind (fun r => r.qr_code_url)))],
        uploads := [], emails := [] } := by
  unfold regSilent; rw [hD]

/-- The only table the handler may produce is the old one or an atomic
upsert of a single row into it. -/
theorem register_table_shape (env : Env) (s : SysState) (req : Request) :
    (register env s req).table = s.table ∨
    ∃ r : Row, (register env s req).table = upsertRow s.table r := by
  cases hA : env.getUser (bearerToken req.authorization) with
  | none => rw [register_auth_fail hA]; exact Or.inl rfl
  | some uid =>
    rw [register_auth_ok hA]
    by_cases hm : mustRegenerate (s.table.find? (fun r => r.user_id == uid)) req.body = true
    · rw [if_pos hm]
      cases hU : env.uploadError with
      | some e => rw [regRegen_upload_fail hU]; exact Or.inl rfl
      | none =>
        rw [regRegen_upload_ok hU]
        cases hD : env.dbError with
        | some e => rw [regFinish_db_fail hD]; exact Or.inl rfl
        | none =>
          cases hE : env.emailError with
          | some e => rw [regFinish_email_fail hD hE]; exact Or.inr ⟨_, rfl⟩
          | none => rw [regFinish_ok hD hE]; exact Or.inr ⟨_, rfl⟩
    · rw [if_neg hm]
      cases hD : env.dbError with
      | some e => rw [regSilent_db_fail hD]; exact Or.inl rfl
      | none => rw [regSilent_ok hD]; exact Or.inr ⟨_, rfl⟩

theorem register_uniq {env : Env} {s : SysState} {req : Request}
    (h : TableUniq s.table) : TableUniq (register env s req).table := by
  rcases register_table_shape env s req with heq | ⟨r, heq⟩
  · rw [heq]; exact h
  · rw [heq]; exact upsertRow_uniq h

theorem runTrace_uniq (l : List (Env × Request)) :
    ∀ s : SysState, TableUniq s.table → TableUniq (runTrace l s).table := by
  induction l with
  | nil => intro s h; exact h
  | cons er tl ih =>
    intro s h
    exact ih (stepState s er) (register_uniq h)

/-- The db-write trace of one handler run: nothing, or exactly one
atomic upsert keyed on `user_id`. -/
theorem register_dbWrites_shape (env : Env) (s : SysState) (req : Request) :
    (register env s req).dbWrites = [] ∨
    ∃ r : Row, (register env s req).dbWrites = [DbWrite.upsert userIdKey r] := by
  cases hA : env.getUser (bearerToken req.authorization) with
  | none => rw [register_auth_fail hA]; exact Or.inl rfl
  | some uid =>
    rw [register_auth_ok hA]
    by_cases hm : mustRegenerate (s.table.find? (fun r => r.user_id == uid)) req.body = true
    · rw [if_pos hm]
      cases hU : env.uploadError with
      | some e => rw [regRegen_upload_fail hU]; exact Or.inl rfl
      | none =>
        rw [regRegen_upload_ok hU]
        cases hD : env.dbError with
        | some e => rw [regFinish_db_fail hD]; exact Or.inr ⟨_, rfl⟩
        | none =>
          cases hE : env.emailError with
          | some e => rw [regFinish_email_fail hD hE]; exact Or.inr ⟨_, rfl⟩
          | none => rw [regFinish_ok hD hE]; exact Or.inr ⟨_, rfl⟩
    · rw [if_neg hm]
      cases hD : env.dbError with
      | some e => rw [regSilent_db_fail hD]; exact Or.inr ⟨_, rfl⟩
      | none => rw [regSilent_ok hD]; exact Or.inr ⟨_, rfl⟩

theorem tableUniq_nil : TableUniq [] := by
  intro uid; simp

theorem tableUniq_singleton (r : Row) : TableUniq [r] := by
  intro uid
  simp [List.countP_cons]
  split <;> simp

theorem rowOk_mono {bucket l : List (String × String)} {r : Row}
    (h : RowOk bucket r) : RowOk (bucket ++ l) r := by
  rcases h with h | ⟨ts, h1, h2⟩
  · exact Or.inl h
  · exact Or.inr ⟨ts, h1, List.mem_append_left l h2⟩

theorem mem_upsertRow {t : List Row} {r x : Row} (h : x ∈ upsertRow t r) :
    x = r ∨ x ∈ t := by
  unfold upsertRow at h
  by_cases ha : t.any (fun y => y.user_id == r.user_id) = true
  · rw [if_pos ha] at h
    rcases List.mem_map.mp h with ⟨y, hy, hxy⟩
    by_cases hm : (y.user_id == r.user_id) = true
    · rw [if_pos hm] at hxy; exact Or.inl hxy.symm
    · rw [if_neg hm] at hxy; exact Or.inr (hxy ▸ hy)
  · rw [if_neg ha] at h
    rcases List.mem_append.mp h with h | h
    · exact Or.inr h
    · exact Or.inl (List.mem_singleton.mp h)

/-- When the Change Detector reports no change, the three compared
fields of the existing record all equal the incoming fields. -/
theorem mustRegenerate_false_fields {ex : Row} {b : Body}
    (h : mustRegenerate (some ex) b = false) :
    ex.participant_name = b.participant_name ∧
    ex.email = b.email ∧ ex.mobile = b.mobile := by
  unfold mustRegenerate at h
  simp only [Bool.or_eq_false_iff, bne_eq_false_iff_eq] at h
  exact ⟨h.1.1, h.1.2, h.2⟩

theorem rowOk_rowOf_regen (bucket : List (String × String)) (uid : String)
    (b : Body) (ts : String) :
    RowOk (bucket ++ [(qrPath (jsStr b.mobile) ts, qrSeed (jsStr b.mobile))])
      (rowOf uid b (some (publicUrl (qrPath (jsStr b.mobile) ts)))) := by
  refine Or.inr ⟨ts, rfl, ?_⟩
  exact List.mem_append_right bucket (List.mem_singleton.mpr rfl)

theorem register_stateOk {env : Env} {s : SysState} {req : Request}
    (h : StateOk s) :
    StateOk { table := (register env s req).table, bucket := (register env s req).bucket } := by
  obtain ⟨hUq, hRows⟩ := h
  cases hA : env.getUser (bearerToken req.authorization) with
  | none => rw [register_auth_fail hA]; exact ⟨hUq, hRows⟩
  | some uid =>
    rw [register_auth_ok hA]
    by_cases hm : mustRegenerate (s.table.find? (fun r => r.user_id == uid)) req.body = true
    · rw [if_pos hm]
      cases hU : env.uploadError with
      | some e => rw [regRegen_upload_fail hU]; exact ⟨hUq, hRows⟩
      | none =>
        rw [regRegen_upload_ok hU]
        cases hD : env.dbError with
        | some e =>
          rw [regFinish_db_fail hD]
          exact ⟨hUq, fun r hr => rowOk_mono (hRows r hr)⟩
        | none =>
          have hMain : TableUniq (upsertRow s.table (rowOf uid req.body
              (some (publicUrl (qrPath (jsStr req.body.mobile) env.nowStr))))) ∧
              ∀ r ∈ upsertRow s.table (rowOf uid req.body
                (some (publicUrl (qrPath (jsStr req.body.mobile) env.nowStr)))),
                RowOk (s.bucket ++ [(qrPath (jsStr req.body.mobile) env.nowStr,
                  qrSeed (jsStr req.body.mobile))]) r := by
            refine ⟨upsertRow_uniq hUq, fun r hr => ?_⟩
            rcases mem_upsertRow hr with rfl | hr
            · exact rowOk_rowOf_regen s.bucket uid req.body env.nowStr
            · exact rowOk_mono (hRows r hr)
          cases hE : env.emailError with
          | some e => rw [regFinish_email_fail hD hE]; exact hMain
          | none => rw [regFinish_ok hD hE]; exact hMain
    · rw [if_neg hm]
      cases hD : env.dbError with
      | some e => rw [regSilent_db_fail hD]; exact ⟨hUq, hRows⟩
      | none =>
        rw [regSilent_ok hD]
        cases hF : s.table.find? (fun r => r.user_id == uid) with
        | none => rw [hF] at hm; exact absurd rfl hm
        | some ex =>
          rw [hF] at hm
          have hFields := mustRegenerate_false_fields
            (show mustRegenerate (some ex) req.body = false by simpa using hm)
          refine ⟨upsertRow_uniq hUq, fun r hr => ?_⟩
          rcases mem_upsertRow hr with rfl | hr
          · have hexOk := hRows ex (List.mem_of_find?_eq_some hF)
            rcases hexOk with hnone | ⟨ts, h1, h2⟩
            · exact Or.inl (by simp [rowOf, hnone])
            · refine Or.inr ⟨ts, ?_, ?_⟩
              · show (Option.bind (some ex) fun r => r.qr_code_url) =
                  some (publicUrl (qrPath (jsStr (rowOf uid req.body
                    (Option.bind (some ex) fun r => r.qr_code_url)).mobile) ts))
                simp only [Option.bind, rowOf]
                rw [← hFields.2.2]
                exact h1
              · show (qrPath (jsStr (rowOf uid req.body
                    (Option.bind (some ex) fun r => r.qr_code_url)).mobile) ts,
                  qrSeed (jsStr (rowOf uid req.body
                    (Option.bind (some ex) fun r => r.qr_code_url)).mobile)) ∈ s.bucket
                simp only [rowOf]
                rw [← hFields.2.2]
                exact h2
          · exact hRows r hr

theorem initState_ok : StateOk initState := by
  refine ⟨tableUniq_nil, ?_⟩
  intro r hr
  cases hr

theorem runTrace_stateOk (l : List (Env × Request)) :
    ∀ s : SysState, StateOk s → StateOk (runTrace l s) := by
  induction l with
  | nil => intro s h; exact h
  | cons er tl ih =>
    intro s h
    exact ih (stepState s er) (register_stateOk h)

theorem ne_of_data_length {a b : String} (h : a.data.length ≠ b.data.length) :
    a ≠ b :=
  fun he => h (congrArg (fun s => s.data.length) he)

theorem qrPath_data_length (m ts : String) :
    (qrPath m ts).data.length = m.data.length + ts.data.length + 13 := by
  unfold qrPath
  rw [String.data_append, String.data_append, String.data_append,
    String.data_append, List.length_append, List.length_append,
    List.length_append, List.length_append]
  have h1 : ("qrcodes/" : String).data.length = 8 := rfl
  have h2 : ("-" : String).data.length = 1 := rfl
  have h3 : (".png" : String).data.length = 4 := rfl
  omega

theorem takeWhile_append_of_all {p : Char → Bool} :
    ∀ (l1 : List Char) (c : Char) (l2 : List Char),
      (∀ x ∈ l1, p x = true) → p c = false →
      (l1 ++ c :: l2).takeWhile p = l1 := by
  intro l1
  induction l1 with
  | nil =>
    intro c l2 _ hc
    simp [List.takeWhile_cons, hc]
  | cons a tl ih =>
    intro c l2 hall hc
    have ha : p a = true := hall a (List.mem_cons_self a tl)
    simp [List.takeWhile_cons, ha,
      ih c l2 (fun x hx => hall x (List.mem_cons_of_mem a hx)) hc]

theorem xffFirst_of_chain {a b : String} (h : ∀ c ∈ a.data, c ≠ ',') :
    xffFirst (a ++ ("," ++ b)) = a := by
  unfold xffFirst
  rw [String.data_append, String.data_append]
  have hd : ("," : String).data = [','] := rfl
  rw [hd]
  simp only [List.cons_append, List.nil_append]
  rw [takeWhile_append_of_all a.data ',' b.data
    (fun x hx => decide_eq_true (h x hx)) (by decide)]
  exact rfl

theorem chain_ne_empty {a b : String} : a ++ ("," ++ b) ≠ "" := by
  apply ne_of_data_length
  rw [String.data_append, String.data_append, List.length_append, List.length_append]
  have hd : ("," : String).data.length = 1 := rfl
  have he : ("" : String).data.length = 0 := rfl
  omega

/-- C1: for every Principal and every sequence of reconciliation
(`POST /register`) calls from system start, at most one
RegistrationRecord exists for that Principal afterwards; and the
persisting step of any single call is a single atomic insert-or-update
keyed on `user_id` (the call's db-write trace is empty or exactly one
`upsert` on the `user_id` conflict key — never a separate
exists-check-then-insert/update pair). -/
theorem claim1_uniqueness_and_atomic_upsert :
    (∀ l : List (Env × Request), TableUniq (runTrace l initState).table) ∧
    (∀ (env : Env) (s : SysState) (req : Request),
      (register env s req).dbWrites = [] ∨
      ∃ r : Row, (register env s req).dbWrites = [DbWrite.upsert userIdKey r]) := by
  constructor
  · intro l
    exact runTrace_uniq l initState tableUniq_nil
  · intro env s req
    exact register_dbWrites_shape env s req

/-- C5: a `POST /register` or `GET /get-registration` request with no
bearer token, or with a token the identity collaborator rejects,
returns a 401 authorization failure, performs no storage write and no
database write, and leaves the state untouched: identity verification
happens before any read or write of a RegistrationRecord. -/
theorem claim5_auth_failure_no_writes (env : Env) (s : SysState) (req : Request) :
    (env.getUser (bearerToken req.authorization) = none →
      register env s req =
        { resp := .err 401 msgUnauthorized, table := s.table, bucket := s.bucket,
          dbWrites := [], uploads := [], emails := [] }) ∧
    (bearerToken req.authorization = none →
      getRegistration env s req =
        { resp := .err 401 msgUnauthorized, table := s.table, bucket := s.bucket,
          dbWrites := [] }) ∧
    (∀ tok : String, bearerToken req.authorization = some tok →
      env.getUser (some tok) = none →
      getRegistration env s req =
        { resp := .err 401 msgInvalidSession, table := s.table, bucket := s.bucket,
          dbWrites := [] }) := by
  refine ⟨fun hA => register_auth_fail hA, fun hT => ?_, fun tok hT hA => ?_⟩
  · simp only [getRegistration, hT]
  · simp only [getRegistration, hT, hA]

/-- Witness for C5 at a concrete missing-token and rejected-token call. -/
theorem claim5_witness :
    register envReject initState reqNoAuth =
      { resp := .err 401 msgUnauthorized, table := [], bucket := [],
        dbWrites := [], uploads := [], emails := [] } ∧
    getRegistration envReject initState reqNoAuth =
      { resp := .err 401 msgUnauthorized, table := [], bucket := [], dbWrites := [] } ∧
    getRegistration envReject initState reqA =
      { resp := .err 401 msgInvalidSession, table := [], bucket := [], dbWrites := [] } :=
  ⟨(claim5_auth_failure_no_writes envReject initState reqNoAuth).1 rfl,
   (claim5_auth_failure_no_writes envReject initState reqNoAuth).2.1 rfl,
   (claim5_auth_failure_no_writes envReject initState reqA).2.2 tok1 (by decide) rfl⟩

/-- C6: when the credential-artifact storage write fails, the whole
reconciliation aborts: no record upsert and no notification is
attempted, the stored table and bucket are unchanged, and the failure
is surfaced as a 500 server error carrying the underlying message. -/
theorem claim6_upload_failure_aborts (env : Env) (s : SysState) (req : Request)
    (uid e : String)
    (hA : env.getUser (bearerToken req.authorization) = some uid)
    (hm : mustRegenerate (s.table.find? (fun r => r.user_id == uid)) req.body = true)
    (hU : env.uploadError = some e) :
    (register env s req).resp = .err 500 e ∧
    (register env s req).table = s.table ∧
    (register env s req).bucket = s.bucket ∧
    (register env s req).dbWrites = [] ∧
    (register env s req).emails = [] := by
  rw [register_auth_ok hA, if_pos hm, regRegen_upload_fail hU]
  exact ⟨rfl, rfl, rfl, rfl, rfl⟩

/-- Witness for C6: a first-time registration whose storage write fails. -/
theorem claim6_witness :
    (register envUploadFail initState reqA).resp = .err 500 errUpload ∧
    (register envUploadFail initState reqA).table = [] ∧
    (register envUploadFail initState reqA).bucket = [] ∧
    (register envUploadFail initState reqA).dbWrites = [] ∧
    (register envUploadFail initState reqA).emails = [] :=
  claim6_upload_failure_aborts envUploadFail initState reqA uid1 errUpload rfl rfl rfl

/-- C7: when the record upsert succeeds and the subsequent notification
send fails, the request as a whole returns a 500 failure while the
RegistrationRecord remains persisted with the new field set and the new
artifact reference (the persisted state is not rolled back). -/
theorem claim7_email_failure_persists (env : Env) (s : SysState) (req : Request)
    (uid e : String)
    (hA : env.getUser (bearerToken req.authorization) = some uid)
    (hm : mustRegenerate (s.table.find? (fun r => r.user_id == uid)) req.body = true)
    (hU : env.uploadError = none)
    (hD : env.dbError = none)
    (hE : env.emailError = some e) :
    (register env s req).resp = .err 500 e ∧
    (register env s req).table =
      upsertRow s.table (rowOf uid req.body
        (some (publicUrl (qrPath (jsStr req.body.mobile) env.nowStr)))) ∧
    (register env s req).table.find? (fun r => r.user_id == uid) =
      some (rowOf uid req.body
        (some (publicUrl (qrPath (jsStr req.body.mobile) env.nowStr)))) ∧
    (register env s req).emails =
      [mkEmail req.body (publicUrl (qrPath (jsStr req.body.mobile) env.nowStr))] ∧
    (register env s req).dbWrites =
      [DbWrite.upsert userIdKey (rowOf uid req.body
        (some (publicUrl (qrPath (jsStr req.body.mobile) env.nowStr))))] := by
  rw [register_auth_ok hA, if_pos hm, regRegen_upload_ok hU, regFinish_email_fail hD hE]
  refine ⟨rfl, rfl, ?_, rfl, rfl⟩
  exact find?_upsertRow_key s.table _ uid rfl

/-- Witness for C7: a first-time registration whose email send fails. -/
theorem claim7_witness :
    (register envEmailFail initState reqA).resp = .err 500 errEmail ∧
    (register envEmailFail initState reqA).table =
      upsertRow [] (rowOf uid1 body1
        (some (publicUrl (qrPath (jsStr body1.mobile) ts1)))) ∧
    (register envEmailFail initState reqA).table.find? (fun r => r.user_id == uid1) =
      some (rowOf uid1 body1
        (some (publicUrl (qrPath (jsStr body1.mobile) ts1)))) ∧
    (register envEmailFail initState reqA).emails =
      [mkEmail body1 (publicUrl (qrPath (jsStr body1.mobile) ts1))] ∧
    (register envEmailFail initState reqA).dbWrites =
      [DbWrite.upsert userIdKey (rowOf uid1 body1
        (some (publicUrl (qrPath (jsStr body1.mobile) ts1))))] :=
  claim7_email_failure_persists envEmailFail initState reqA uid1 errEmail rfl rfl rfl rfl rfl

theorem upsertRow_self_key {t : List Row} {r : Row} {uid : String}
    (hUq : TableUniq t) (hKey : r.user_id = uid)
    (hF : t.find? (fun x => x.user_id == uid) = some r) :
    upsertRow t r = t := by
  subst hKey; exact upsertRow_self hUq hF

theorem register_table_upsert {env : Env} {s : SysState} {req : Request} {uid : String}
    (hA : env.getUser (bearerToken req.authorization) = some uid)
    (hU : env.uploadError = none) (hD : env.dbError = none) :
    ∃ u : Option String,
      (register env s req).table = upsertRow s.table (rowOf uid req.body u) := by
  rw [register_auth_ok hA]
  by_cases hm : mustRegenerate (s.table.find? (fun r => r.user_id == uid)) req.body = true
  · rw [if_pos hm, regRegen_upload_ok hU]
    cases hE : env.emailError with
    | some e => rw [regFinish_email_fail hD hE]; exact ⟨_, rfl⟩
    | none => rw [regFinish_ok hD hE]; exact ⟨_, rfl⟩
  · rw [if_neg hm, regSilent_ok hD]
    exact ⟨_, rfl⟩

/-- A call whose body matches the stored row exactly is a no-op with a
silent response. -/
theorem register_noop {env : Env} {s : SysState} {req : Request} {uid : String}
    {u : Option String}
    (hUq : TableUniq s.table)
    (hA : env.getUser (bearerToken req.authorization) = some uid)
    (hF : s.table.find? (fun r => r.user_id == uid) = some (rowOf uid req.body u))
    (hD : env.dbError = none) :
    register env s req =
      { resp := .ok msgSilent false, table := s.table, bucket := s.bucket,
        dbWrites := [.upsert userIdKey (rowOf uid req.body u)],
        uploads := [], emails := [] } := by
  have hcond : ¬ (mustRegenerate (s.table.find? (fun r => r.user_id == uid)) req.body = true) := by
    rw [hF, mustRegenerate_rowOf]
    simp
  rw [register_auth_ok hA, if_neg hcond, hF, regSilent_ok hD]
  have hself : upsertRow s.table (rowOf uid req.body
      ((some (rowOf uid req.body u)).bind (fun r => r.qr_code_url))) = s.table :=
    upsertRow_self_key hUq rfl hF
  rw [hself]
  exact rfl

theorem regSilent_effects (env : Env) (s : SysState) (b : Body) (uid : String)
    (existing : Option Row) :
    (regSilent env s b uid existing).uploads = [] ∧
    (regSilent env s b uid existing).emails = [] ∧
    (regSilent env s b uid existing).bucket = s.bucket := by
  unfold regSilent
  cases env.dbError <;> exact ⟨rfl, rfl, rfl⟩

/-- C2: the Change Detector sets `mustRegenerate` true exactly when
there is no prior record or one of the compared fields name/email/phone
differs from the stored value; a request whose compared fields all
match (for example one changing only head-count or session-attendance
fields) triggers neither artifact regeneration nor notification, and
carries the existing artifact reference forward unchanged. -/
theorem claim2_change_detector (env : Env) (s : SysState) (req : Request)
    (uid : String) (ex : Row)
    (hA : env.getUser (bearerToken req.authorization) = some uid)
    (hF : s.table.find? (fun r => r.user_id == uid) = some ex) :
    C2Concl env s req uid ex := by
  refine ⟨?_, fun b => rfl, fun hm => ?_⟩
  · simp [mustRegenerate, bne_iff_ne, or_assoc]
  · have hcond : ¬ (mustRegenerate (s.table.find? (fun r => r.user_id == uid)) req.body = true) := by
      rw [hF, hm]
      simp
    rw [register_auth_ok hA, if_neg hcond, hF]
    refine ⟨(regSilent_effects env s req.body uid (some ex)).1,
      (regSilent_effects env s req.body uid (some ex)).2.1,
      (regSilent_effects env s req.body uid (some ex)).2.2, fun hD => ?_⟩
    rw [regSilent_ok hD]
    exact ⟨rfl, rfl⟩

/-- Witness for C2: a head-count-only edit on an existing record is a
silent update with the artifact reference carried forward. -/
theorem claim2_witness :
    (register envA state1 reqKids).uploads = [] ∧
    (register envA state1 reqKids).emails = [] ∧
    (register envA state1 reqKids).bucket = state1.bucket ∧
    (register envA state1 reqKids).resp = RegResp.ok msgSilent false ∧
    (register envA state1 reqKids).table =
      upsertRow state1.table (rowOf uid1 bodyKids row1.qr_code_url) := by
  have h := claim2_change_detector envA state1 reqKids uid1 row1 rfl (by decide)
  obtain ⟨-, -, h3⟩ := h
  obtain ⟨h31, h32, h33, h34⟩ := h3 (by decide)
  exact ⟨h31, h32, h33, (h34 rfl).1, (h34 rfl).2⟩

/-- C4: reconciliation is idempotent: re-submitting the identical
request immediately after a first successful application leaves the
stored table and bucket exactly as after the first call, uploads no
new artifact, sends no email, and reports `emailSent` false. -/
theorem claim4_idempotent (env1 env2 : Env) (s : SysState) (req : Request)
    (uid : String)
    (hUq : TableUniq s.table)
    (hA1 : env1.getUser (bearerToken req.authorization) = some uid)
    (hU1 : env1.uploadError = none) (hD1 : env1.dbError = none)
    (_hE1 : env1.emailError = none)
    (hA2 : env2.getUser (bearerToken req.authorization) = some uid)
    (hD2 : env2.dbError = none) :
    C4Concl env1 env2 s req := by
  obtain ⟨u, hTab⟩ := register_table_upsert (s := s) hA1 hU1 hD1
  have hs1t : (stepState s (env1, req)).table =
      upsertRow s.table (rowOf uid req.body u) := hTab
  have hUq1 : TableUniq (stepState s (env1, req)).table := by
    rw [hs1t]; exact upsertRow_uniq hUq
  have hF1 : (stepState s (env1, req)).table.find? (fun r => r.user_id == uid) =
      some (rowOf uid req.body u) := by
    rw [hs1t]; exact find?_upsertRow_key s.table _ uid rfl
  have hNoop := register_noop hUq1 hA2 hF1 hD2
  refine ⟨?_, ?_, ?_, ?_, ?_⟩ <;> rw [hNoop] <;> rfl

/-- Witness for C4: first registration of a fresh principal, then the
identical request again. -/
theorem claim4_witness : C4Concl envA envA initState reqA :=
  claim4_idempotent envA envA initState reqA uid1 tableUniq_nil rfl rfl rfl rfl rfl rfl

/-- The stale stored reference of a row equals the public url of a
bucket object holding the seed for the row's own phone number, and the
fresh clock makes the new reference distinct from it. -/
theorem stale_url_distinct {env : Env} {s : SysState} {ex : Row} {u0 : String}
    (hOk : StateOk s) (hFr : FreshTs env s) (hMem : ex ∈ s.table)
    (hPrev : ex.qr_code_url = some u0) (m : String) :
    (∃ ts : String, u0 = publicUrl (qrPath (jsStr ex.mobile) ts) ∧
      (qrPath (jsStr ex.mobile) ts, qrSeed (jsStr ex.mobile)) ∈ s.bucket) ∧
    publicUrl (qrPath m env.nowStr) ≠ u0 := by
  rcases hOk.2 ex hMem with hnone | ⟨ts, h1, h2⟩
  · rw [hPrev] at hnone; cases hnone
  · rw [hPrev] at h1
    have h1' : u0 = publicUrl (qrPath (jsStr ex.mobile) ts) := Option.some.inj h1
    refine ⟨⟨ts, h1', h2⟩, fun heq => ?_⟩
    have hpaths : qrPath m env.nowStr = qrPath (jsStr ex.mobile) ts :=
      publicUrl_injective (heq.trans h1')
    exact hFr (qrPath (jsStr ex.mobile) ts, qrSeed (jsStr ex.mobile)) h2 m hpaths.symm

/-- C3: when the incoming phone number differs from the stored phone
number of the Principal's existing record, a new credential artifact is
generated and stored, the artifact reference persisted with the record
is distinct from the prior reference, and a notification is dispatched
(`emailSent` true). -/
theorem claim3_phone_change_regenerates (env : Env) (s : SysState) (req : Request)
    (uid : String) (ex : Row) (u0 : String)
    (hOk : StateOk s) (hFr : FreshTs env s)
    (hA : env.getUser (bearerToken req.authorization) = some uid)
    (hF : s.table.find? (fun r => r.user_id == uid) = some ex)
    (hMob : ex.mobile ≠ req.body.mobile)
    (hPrev : ex.qr_code_url = some u0)
    (hU : env.uploadError = none) (hD : env.dbError = none)
    (hE : env.emailError = none) :
    C3Concl env s req uid u0 := by
  have hm : mustRegenerate (s.table.find? (fun r => r.user_id == uid)) req.body = true := by
    rw [hF]
    simp [mustRegenerate, bne_iff_ne]
    exact Or.inr hMob
  have hne := stale_url_distinct hOk hFr (List.mem_of_find?_eq_some hF) hPrev
    (jsStr req.body.mobile)
  unfold C3Concl
  rw [register_auth_ok hA, if_pos hm, regRegen_upload_ok hU, regFinish_ok hD hE]
  refine ⟨rfl, rfl, ?_, ?_, hne.2, rfl⟩
  · exact List.mem_append_right s.bucket (List.mem_singleton.mpr rfl)
  · exact find?_upsertRow_key s.table _ uid rfl

/-- C9: the encoded content of the credential artifact is a function of
the phone number only: a regeneration triggered solely by a change of
name or email (phone unchanged) uploads an artifact encoding exactly
the seed string of the artifact it replaces; only the storage path and
the public reference differ. -/
theorem claim9_seed_function_of_phone (env : Env) (s : SysState) (req : Request)
    (uid : String) (ex : Row) (u0 : String)
    (hOk : StateOk s) (hFr : FreshTs env s)
    (hA : env.getUser (bearerToken req.authorization) = some uid)
    (hF : s.table.find? (fun r => r.user_id == uid) = some ex)
    (hSame : ex.mobile = req.body.mobile)
    (hDiff : ex.participant_name ≠ req.body.participant_name ∨
      ex.email ≠ req.body.email)
    (hPrev : ex.qr_code_url = some u0) :
    C9Concl env s req ex u0 := by
  have hm : mustRegenerate (s.table.find? (fun r => r.user_id == uid)) req.body = true := by
    rw [hF]
    simp only [mustRegenerate, Bool.or_eq_true, bne_iff_ne, ne_eq]
    rcases hDiff with h | h
    · exact Or.inl (Or.inl h)
    · exact Or.inl (Or.inr h)
  have hne := stale_url_distinct hOk hFr (List.mem_of_find?_eq_some hF) hPrev
    (jsStr req.body.mobile)
  have hup : (register env s req).uploads =
      [(qrPath (jsStr req.body.mobile) env.nowStr, qrSeed (jsStr req.body.mobile))] := by
    rw [register_auth_ok hA, if_pos hm]
    cases hU : env.uploadError with
    | some e => rw [regRegen_upload_fail hU]
    | none =>
      rw [regRegen_upload_ok hU]
      cases hD : env.dbError with
      | some e => rw [regFinish_db_fail hD]
      | none =>
        cases hE : env.emailError with
        | some e => rw [regFinish_email_fail hD hE]
        | none => rw [regFinish_ok hD hE]
  unfold C9Concl
  rw [hSame] at hne
  rw [hSame]
  exact ⟨hup, hne.1, hne.2⟩

/-- C10: `POST /register` performs no field validation: an
authenticated request whose body omits the `mobile` field does not fail
with a validation error — it generates and stores an artifact whose
seed string and storage path interpolate the literal text `undefined`,
upserts the record with the absent field, and reports success. -/
theorem claim10_no_field_validation (env : Env) (s : SysState) (req : Request)
    (uid : String)
    (hA : env.getUser (bearerToken req.authorization) = some uid)
    (hMob : req.body.mobile = none)
    (hF : s.table.find? (fun r => r.user_id == uid) = none)
    (hU : env.uploadError = none) (hD : env.dbError = none)
    (hE : env.emailError = none) :
    C10Concl env s req uid := by
  have hm : mustRegenerate (s.table.find? (fun r => r.user_id == uid)) req.body = true := by
    rw [hF]; rfl
  have hj : jsStr req.body.mobile = undefinedText := by rw [hMob]; rfl
  unfold C10Concl
  rw [register_auth_ok hA, if_pos hm, regRegen_upload_ok hU, regFinish_ok hD hE, hj]
  refine ⟨rfl, rfl, by decide, rfl, ?_, hMob⟩
  exact find?_upsertRow_key s.table _ uid rfl

theorem state1_ok : StateOk state1 := by
  refine ⟨tableUniq_singleton row1, ?_⟩
  intro r hr
  rcases List.mem_singleton.mp hr with rfl
  exact Or.inr ⟨ts1, rfl, List.mem_singleton.mpr rfl⟩

theorem state1_fresh : FreshTs envFresh state1 := by
  intro pc hpc m
  rcases List.mem_singleton.mp hpc with rfl
  apply ne_of_data_length
  rw [qrPath_data_length, qrPath_data_length]
  have h1 : (jsStr body1.mobile).data.length = 5 := rfl
  have h2 : ts1.data.length = 3 := rfl
  have h3 : envFresh.nowStr.data.length = 11 := rfl
  omega

/-- Witness for C3: the fixture registration changes its phone number. -/
theorem claim3_witness : C3Concl envFresh state1 reqPhone uid1 url1 :=
  claim3_phone_change_regenerates envFresh state1 reqPhone uid1 row1 url1
    state1_ok state1_fresh rfl (by decide) (by decide) rfl rfl rfl rfl

/-- Witness for C9: the fixture registration changes only its name. -/
theorem claim9_witness : C9Concl envFresh state1 reqName row1 url1 :=
  claim9_seed_function_of_phone envFresh state1 reqName uid1 row1 url1
    state1_ok state1_fresh rfl (by decide) (by decide) (Or.inl (by decide)) rfl

/-- Witness for C10: a first-time registration with no `mobile` field. -/
theorem claim10_witness : C10Concl envA initState reqNoMob uid1 :=
  claim10_no_field_validation envA initState reqNoMob uid1 rfl rfl rfl rfl rfl rfl

/-- C8 counterexample: the claim asserts that the narrower one-hour
rate-limit window applies to every mutating endpoint including
registration; but in `src/app.js` line 282 the active `POST /register`
route is registered with no route-level middleware at all, so
`uploadLimiter` does not apply to it. -/
theorem claim8_counterexample : Mw.uploadLimiter ∉ routeMws registerPath := by
  decide

/-- C8 amended: the narrower one-hour limiter (cap 100, message
`Upload limit reached!`) applies to the signup and upload endpoints but
not to `POST /register`; where it applies, within the window the first
N same-identity requests are admitted and the (N+1)-th is rejected,
the identity being the first (left-most) entry of the forwarded-address
chain, trimmed, when that header is present and non-empty, else the
direct connection address. -/
theorem claim8_narrow_limiter_not_on_register :
    (Mw.uploadLimiter ∈ routeMws signupPath ∧
     Mw.uploadLimiter ∈ routeMws uploadFilePath ∧
     Mw.uploadLimiter ∉ routeMws registerPath) ∧
    (uploadLimiterCfg.windowMs = 3600000 ∧ uploadLimiterCfg.maxHits = 100 ∧
     uploadLimiterCfg.message = rateLimitMsg) ∧
    (∀ (prior : List String) (k : String),
      prior.countP (fun x => x == k) < uploadLimiterCfg.maxHits →
      limiterAdmits uploadLimiterCfg prior k = true) ∧
    (∀ (prior : List String) (k : String),
      uploadLimiterCfg.maxHits ≤ prior.countP (fun x => x == k) →
      limiterAdmits uploadLimiterCfg prior k = false) ∧
    (∀ ip : String, rateKey none ip = ip) ∧
    (∀ a b ip : String, (∀ c ∈ a.data, c ≠ ',') →
      rateKey (some (a ++ ("," ++ b))) ip = jsTrim a) := by
  refine ⟨⟨by decide, by decide, by decide⟩, ⟨rfl, rfl, rfl⟩, ?_, ?_, fun ip => rfl, ?_⟩
  · intro prior k h
    unfold limiterAdmits
    exact decide_eq_true h
  · intro prior k h
    unfold limiterAdmits
    exact decide_eq_false (by omega)
  · intro a b ip h
    show (if a ++ ("," ++ b) = "" then ip
      else jsTrim (xffFirst (a ++ ("," ++ b)))) = jsTrim a
    rw [if_neg chain_ne_empty, xffFirst_of_chain h]

set_option maxRecDepth 4000 in
/-- Witness for the amended C8: the 100th same-identity request in the
window is admitted, the 101st is rejected, and a two-entry forwarded
chain keys on its first entry. -/
theorem claim8_witness :
    limiterAdmits uploadLimiterCfg (List.replicate 99 ipA) ipA = true ∧
    limiterAdmits uploadLimiterCfg (List.replicate 100 ipA) ipA = false ∧
    rateKey (some (ipA ++ ("," ++ ipB))) ipC = jsTrim ipA :=
  ⟨claim8_narrow_limiter_not_on_register.2.2.1 (List.replicate 99 ipA) ipA (by decide),
   claim8_narrow_limiter_not_on_register.2.2.2.1 (List.replicate 100 ipA) ipA (by decide),
   claim8_narrow_limiter_not_on_register.2.2.2.2.2 ipA ipB ipC (by decide)⟩
